import Mathlib

/-!
# Verification of the HR Telegram bot against its specification

Shallow embedding of the bot's core logic:
* the durable Google-Sheets outbox queue (`core/database.py`, `core/g_sheets.py`),
* the pending-feedback task store (`core/database.py`),
* the tenacity retry wrapper around spreadsheet appends (`core/g_sheets.py`),
* the global error handler and user-data cleanup (`handlers/common.py`),
* input validation in the conversation handlers (`handlers/manager.py`,
  `handlers/manager_feedback_flow.py`),
* the health monitor and watchdog decision logic (`monitor.py`, `watchdog.py`),
* the database access wrapper (`core/database.py`),
* deduplication of pending feedback tasks (`core/database.py`).

Tables are modelled as lists of rows, SQL `ORDER BY` as a stable insertion
sort, and the sqlite/network side effects as explicit parameters describing
their outcomes.
-/

namespace HRBot

/-! ## Sheets outbox queue (`sheets_queue` table, `core/database.py`) -/

/-- A row of the `sheets_queue` table
(`id INTEGER PRIMARY KEY AUTOINCREMENT, sheet_name, data_json, created_at,
attempts INTEGER DEFAULT 0, is_processed BOOLEAN DEFAULT 0`). -/
structure QueueItem where
  id : Nat
  sheet_name : String
  data_json : String
  created_at : Nat
  attempts : Nat
  is_processed : Bool
deriving Repr, DecidableEq

/-- The `sheets_queue` table contents. -/
abbrev SheetsQueue := List QueueItem

/-- Stable insert used to model SQL `ORDER BY created_at`. -/
def insertByCreated (x : QueueItem) : List QueueItem → List QueueItem
  | [] => [x]
  | y :: ys => if x.created_at ≤ y.created_at then x :: y :: ys else y :: insertByCreated x ys

/-- Stable sort by `created_at`, modelling SQL `ORDER BY created_at`. -/
def sortByCreated : List QueueItem → List QueueItem
  | [] => []
  | x :: xs => insertByCreated x (sortByCreated xs)

/-- `get_sheets_queue_batch(limit=50)`:
`SELECT id, sheet_name, data_json, attempts FROM sheets_queue
 WHERE is_processed = 0 ORDER BY created_at LIMIT ?`. -/
def get_sheets_queue_batch (q : SheetsQueue) (limit : Nat := 50) : List QueueItem :=
  (((sortByCreated q).filter (fun i => !i.is_processed)).take limit)

/-- `mark_sheets_queue_items_processed(item_ids)`:
`UPDATE sheets_queue SET is_processed = 1 WHERE id IN (...)`;
the Python function returns without touching the database when `item_ids` is empty. -/
def mark_sheets_queue_items_processed (q : SheetsQueue) (item_ids : List Nat) : SheetsQueue :=
  if item_ids = [] then q
  else q.map (fun i => if i.id ∈ item_ids then { i with is_processed := true } else i)

/-- `increment_sheets_queue_attempts(item_ids)`:
`UPDATE sheets_queue SET attempts = attempts + 1 WHERE id IN (...)`. -/
def increment_sheets_queue_attempts (q : SheetsQueue) (item_ids : List Nat) : SheetsQueue :=
  if item_ids = [] then q
  else q.map (fun i => if i.id ∈ item_ids then { i with attempts := i.attempts + 1 } else i)

/-- The next AUTOINCREMENT id: one more than the largest id ever used
(sqlite AUTOINCREMENT never reuses ids of rows still in the table). -/
def nextQueueId (q : SheetsQueue) : Nat :=
  (q.map (·.id)).foldr max 0 + 1

/-- `add_to_sheets_db_queue(sheet_name, data)`:
`INSERT INTO sheets_queue (sheet_name, data_json, created_at) VALUES (?, ?, ?)`
with `attempts` and `is_processed` taking their defaults `0`. -/
def add_to_sheets_db_queue (q : SheetsQueue) (sheet_name data_json : String)
    (created_at : Nat) : SheetsQueue :=
  q ++ [⟨nextQueueId q, sheet_name, data_json, created_at, 0, false⟩]

/-- `MAX_WRITE_ATTEMPTS` from `core/g_sheets.py`. -/
def MAX_WRITE_ATTEMPTS : Nat := 3

/-- `process_batch_for_sheet(application, agc_manager, sheet_name, items)` from
`core/g_sheets.py`, with the outcome of the spreadsheet write abstracted as
`writeOk`. On success the items are marked processed and no alert is sent; on
failure the attempts counters are incremented, the items whose (pre-increment)
`attempts + 1` reached `MAX_WRITE_ATTEMPTS` are counted, and if any exist one
alert message is sent to every configured admin. Returns the new queue and the
number of admin alert messages sent. -/
def process_batch_for_sheet (q : SheetsQueue) (items : List QueueItem)
    (writeOk : Bool) (adminIds : List Nat) : SheetsQueue × Nat :=
  let item_ids := items.map (·.id)
  if writeOk then
    (mark_sheets_queue_items_processed q item_ids, 0)
  else
    let q' := increment_sheets_queue_attempts q item_ids
    let failed_items_count := (items.filter
      (fun i => MAX_WRITE_ATTEMPTS ≤ i.attempts + 1)).length
    (q', if 0 < failed_items_count then adminIds.length else 0)

/-- Operations other parts of the bot may perform on the queue between two
batch-writer cycles. -/
inductive QueueOp where
  | mark (ids : List Nat)
  | increment (ids : List Nat)
  | add (sheet_name data_json : String) (created_at : Nat)
deriving Repr

/-- Apply a queue operation. -/
def applyQueueOp (q : SheetsQueue) : QueueOp → SheetsQueue
  | .mark ids => mark_sheets_queue_items_processed q ids
  | .increment ids => increment_sheets_queue_attempts q ids
  | .add s d c => add_to_sheets_db_queue q s d c

/-- Apply a sequence of queue operations. -/
def applyQueueOps (q : SheetsQueue) : List QueueOp → SheetsQueue
  | [] => q
  | op :: ops => applyQueueOps (applyQueueOp q op) ops

/-! ## Pending feedback tasks and feedback history (`core/database.py`) -/

/-- A row of the `pending_feedback` table
(`feedback_id TEXT PRIMARY KEY, manager_id, message_id, candidate_id,
candidate_name, job_data_json, created_at`). -/
structure PendingFeedback where
  feedback_id : String
  manager_id : Int
  message_id : Option Int
  candidate_id : Int
  candidate_name : String
  job_data_json : String
  created_at : Nat
deriving Repr, DecidableEq

/-- A row of the `feedback_history` table
(`feedback_id TEXT PRIMARY KEY, manager_id, message_id, candidate_id,
candidate_name, job_data_json, created_at, decision_at, decision_by_id, status`). -/
structure FeedbackHistoryRow where
  feedback_id : String
  manager_id : Int
  message_id : Option Int
  candidate_id : Int
  candidate_name : String
  job_data_json : String
  created_at : Nat
  decision_at : Option Nat
  decision_by_id : Option Int
  status : Option String
deriving Repr, DecidableEq

/-- `remove_all_pending_feedback_for_candidate(candidate_id)`:
`DELETE FROM pending_feedback WHERE candidate_id = ?`. -/
def remove_all_pending_feedback_for_candidate (pending : List PendingFeedback)
    (candidate_id : Int) : List PendingFeedback :=
  pending.filter (fun t => t.candidate_id ≠ candidate_id)

/-- The history row inserted by `move_pending_feedback_to_history`, built from the
selected pending task plus the decision time, decider and status. -/
def historyRowOfTask (t : PendingFeedback) (decision_at : Nat) (decision_by_id : Int)
    (status : String) : FeedbackHistoryRow :=
  ⟨t.feedback_id, t.manager_id, t.message_id, t.candidate_id, t.candidate_name,
    t.job_data_json, t.created_at, some decision_at, some decision_by_id, some status⟩

/-- `INSERT OR IGNORE INTO feedback_history ...`: the insert is a no-op when a row
with the same primary key `feedback_id` already exists. -/
def insert_or_ignore_history (hist : List FeedbackHistoryRow) (row : FeedbackHistoryRow) :
    List FeedbackHistoryRow :=
  if hist.any (fun h => h.feedback_id = row.feedback_id) then hist else hist ++ [row]

/-- `move_pending_feedback_to_history(candidate_id, decision_by_id, status)`:
selects one pending task for the candidate (`SELECT * FROM pending_feedback WHERE
candidate_id = ? LIMIT 1`); if none exists it only deletes the (absent) pending
rows and returns; otherwise it inserts the corresponding history row with
`INSERT OR IGNORE` and then deletes every pending row for the candidate.
Returns the new `(pending_feedback, feedback_history)` tables. -/
def move_pending_feedback_to_history (pending : List PendingFeedback)
    (hist : List FeedbackHistoryRow) (candidate_id : Int) (decision_by_id : Int)
    (status : String) (decision_time : Nat) :
    List PendingFeedback × List FeedbackHistoryRow :=
  match pending.find? (fun t => t.candidate_id = candidate_id) with
  | none => (remove_all_pending_feedback_for_candidate pending candidate_id, hist)
  | some t =>
      (remove_all_pending_feedback_for_candidate pending candidate_id,
       insert_or_ignore_history hist (historyRowOfTask t decision_time decision_by_id status))

/-! ## Tenacity retry wrapper (`retry_gspread_operation`, `core/g_sheets.py`) -/

/-- The exception raised by an individual spreadsheet append attempt.
The first six constructors are the members of `GSPREAD_RETRY_ERRORS`;
`other` stands for any exception type not in that tuple. -/
inductive GspreadAttemptError where
  | apiError
  | connectionError
  | timeout
  | requestException
  | gspreadException
  | timeoutError
  | other (name : String)
deriving Repr, DecidableEq

/-- `retry_if_exception_type(GSPREAD_RETRY_ERRORS)`: whether the raised exception
is an instance of one of the listed transient error types. -/
def isRetryableGspreadError : GspreadAttemptError → Bool
  | .other _ => false
  | _ => true

/-- `stop_after_attempt(5)` from `retry_gspread_operation`. -/
def STOP_AFTER_ATTEMPTS : Nat := 5

/-- `wait_exponential(multiplier=1, min=10, max=60)`: tenacity's exponential
backoff, `multiplier * 2^(attempt-1)` clamped into `[min, max]` (attempts are
1-based). -/
def wait_exponential (multiplier mn mx attempt : Nat) : Nat :=
  max mn (min (multiplier * 2 ^ (attempt - 1)) mx)

/-- The wait used by `retry_gspread_operation` before retrying after the given
(1-based) failed attempt. -/
def gspreadRetryWait (attempt : Nat) : Nat :=
  wait_exponential 1 10 60 attempt

/-- The tenacity retry loop with `reraise=True`: `outcomes k` is the result of the
`k`-th (1-based) call of the wrapped coroutine, `attempt` the current attempt
number and `remaining` how many further attempts `stop_after_attempt` still
allows. On success the value is returned; on a retryable exception with attempts
remaining the call is retried; otherwise (non-retryable exception, or the stop
condition reached) the original exception is re-raised. Returns the final result
and the index of the last attempt performed. -/
def retryGo (outcomes : Nat → Except GspreadAttemptError Unit) (attempt : Nat) :
    Nat → (Except GspreadAttemptError Unit) × Nat
  | 0 => (outcomes attempt, attempt)
  | remaining + 1 =>
    match outcomes attempt with
    | .ok u => (.ok u, attempt)
    | .error e =>
      if isRetryableGspreadError e then retryGo outcomes (attempt + 1) remaining
      else (.error e, attempt)

/-- `retry_gspread_operation` applied to an operation whose per-attempt outcomes
are `outcomes`: at most `STOP_AFTER_ATTEMPTS` attempts, starting from attempt 1. -/
def retry_gspread_operation (outcomes : Nat → Except GspreadAttemptError Unit) :
    (Except GspreadAttemptError Unit) × Nat :=
  retryGo outcomes 1 (STOP_AFTER_ATTEMPTS - 1)

/-- `append_rows_to_sheet(worksheet, data)`: the decorated coroutine returns
immediately when `data` is empty and otherwise performs the append, whose
outcome on the `k`-th attempt is `outcomes k`. The decorator wraps every call
in the retry loop. -/
def append_rows_to_sheet (data : List (List String))
    (outcomes : Nat → Except GspreadAttemptError Unit) :
    (Except GspreadAttemptError Unit) × Nat :=
  retry_gspread_operation (fun k => if data.isEmpty then .ok () else outcomes k)

/-! ## Database state and user-data cleanup (`core/database.py`) -/

/-- A row of the `managers` table (`PRIMARY KEY (user_id, restaurant_code)`). -/
structure ManagerRow where
  user_id : Int
  restaurant_code : String
  full_name : Option String
  username : Option String
deriving Repr, DecidableEq

/-- A row of the `pending_managers` table (`user_id INTEGER PRIMARY KEY`). -/
structure PendingManagerRow where
  user_id : Int
  full_name : String
  username : Option String
  restaurant_code : String
  restaurant_name : String
  request_time : Nat
deriving Repr, DecidableEq

/-- A row of the `surveys` table (`PRIMARY KEY (survey_type, user_id)`). -/
structure SurveyRow where
  survey_type : String
  user_id : Int
  restaurant_code : Option String
  completed_at : Nat
deriving Repr, DecidableEq

/-- A row of the `candidate_restaurants` table (`user_id INTEGER PRIMARY KEY`). -/
structure CandidateRestaurantRow where
  user_id : Int
  restaurant_code : String
deriving Repr, DecidableEq

/-- A row of the `employees` table (`user_id INTEGER PRIMARY KEY`). -/
structure EmployeeRow where
  user_id : Int
  full_name : Option String
  restaurant_code : Option String
  is_active : Bool
  added_at : Option Nat
deriving Repr, DecidableEq

/-- The relational state touched by `delete_user_data`. -/
structure DbState where
  managers : List ManagerRow
  pending_managers : List PendingManagerRow
  surveys : List SurveyRow
  candidate_restaurants : List CandidateRestaurantRow
  employees : List EmployeeRow
  pending_feedback : List PendingFeedback
  feedback_history : List FeedbackHistoryRow
deriving Repr, DecidableEq

/-- `delete_user_data(user_id)`: deletes the user's rows from `managers`,
`pending_managers`, `surveys`, `candidate_restaurants` and `employees`, deletes
`pending_feedback` rows where the user is the candidate and then those where
they are the manager, and sets `decision_by_id` to NULL in `feedback_history`
rows that reference the user. -/
def delete_user_data (db : DbState) (user_id : Int) : DbState :=
  { managers := db.managers.filter (fun r => r.user_id ≠ user_id)
    pending_managers := db.pending_managers.filter (fun r => r.user_id ≠ user_id)
    surveys := db.surveys.filter (fun r => r.user_id ≠ user_id)
    candidate_restaurants := db.candidate_restaurants.filter (fun r => r.user_id ≠ user_id)
    employees := db.employees.filter (fun r => r.user_id ≠ user_id)
    pending_feedback :=
      (db.pending_feedback.filter (fun t => t.candidate_id ≠ user_id)).filter
        (fun t => t.manager_id ≠ user_id)
    feedback_history :=
      db.feedback_history.map (fun h =>
        if h.decision_by_id = some user_id then { h with decision_by_id := none } else h) }

/-! ## Global error handler (`handlers/common.py`) -/

/-- The exception caught by the global error handler: `telegram.error.Forbidden`
(a permission error, e.g. the user blocked the bot) or anything else. -/
inductive TgError where
  | forbidden
  | otherError (name : String)
deriving Repr, DecidableEq

/-- A message the error handler sends. -/
inductive SentMessage where
  /-- The user-facing apology sent to `update.effective_chat`. -/
  | userError (chat_id : Int)
  /-- The error report sent to one admin. -/
  | adminError (admin_id : Int)
deriving Repr, DecidableEq

/-- `handle_blocked_user(user_id, context)`: deletes all database data for the
user and discards the user from the in-memory `users_interacted` set. Sends
nothing. Returns the new database state and interacted set. -/
def handle_blocked_user (db : DbState) (interacted : List Int) (user_id : Int) :
    DbState × List Int :=
  (delete_user_data db user_id, interacted.filter (fun u => u ≠ user_id))

/-- `error_handler(update, context)`: on a `Forbidden` error with an update that
has an effective user, silently runs `handle_blocked_user` and returns; for any
other error it sends an apology to the effective chat (when there is one) and an
error report to every configured admin. `effUser`/`effChat` are
`update.effective_user`/`update.effective_chat` (`none` when the update object
lacks them). Returns the new database state, the new interacted set and the
messages sent. -/
def error_handler (err : TgError) (effUser : Option Int) (effChat : Option Int)
    (db : DbState) (interacted : List Int) (adminIds : List Int) :
    DbState × List Int × List SentMessage :=
  match err with
  | .forbidden =>
    match effUser with
    | some uid =>
      let (db', interacted') := handle_blocked_user db interacted uid
      (db', interacted', [])
    | none => (db, interacted, [])
  | .otherError _ =>
    let userMsgs := match effChat with
      | some c => [SentMessage.userError c]
      | none => []
    (db, interacted, userMsgs ++ adminIds.map SentMessage.adminError)

/-! ## Database access wrapper (`execute_query`, `core/database.py`) -/

/-- A row returned by sqlite, abstracted as an association list
(`sqlite3.Row` converted to `dict`). -/
abbrev SqlRow := List (String × String)

/-- The outcome of running the SQL statement inside `_execute_query_sync`:
either the cursor state after a successful execution, or a `sqlite3.Error`. -/
inductive SqlOutcome where
  | ok (rows : List SqlRow) (lastrowid : Int)
  | sqlError (msg : String)
deriving Repr, DecidableEq

/-- A Python value as returned by the database layer. -/
inductive PyValue where
  | noneVal
  | intVal (n : Int)
  | listVal (rows : List SqlRow)
  | dictVal (row : SqlRow)
deriving Repr, DecidableEq

/-- Python truthiness of a `PyValue` (`None`, `0`, `[]` and `{}` are falsy). -/
def pyTruthy : PyValue → Bool
  | .noneVal => false
  | .intVal n => n ≠ 0
  | .listVal rows => !rows.isEmpty
  | .dictVal row => !row.isEmpty

/-- Truthiness of the Python `fetch: Optional[str]` argument
(`None` and the empty string are falsy). -/
def pyTruthyFetch : Option String → Bool
  | none => false
  | some s => s ≠ ""

/-- `_execute_query_sync(query, params, fetch)` with the sqlite execution
abstracted by its outcome: on success, `fetch == "one"` returns the first row as
a dict or `None`, `fetch == "all"` returns all rows as dicts, and otherwise
`cursor.lastrowid` is returned; a `sqlite3.Error` is re-raised as
`DatabaseError`. -/
def _execute_query_sync (outcome : SqlOutcome) (fetch : Option String) :
    Except String PyValue :=
  match outcome with
  | .sqlError m => .error ("Database operation failed: " ++ m)
  | .ok rows lastrowid =>
    if fetch = some "one" then
      .ok (match rows.head? with
        | some r => .dictVal r
        | none => .noneVal)
    else if fetch = some "all" then
      .ok (.listVal rows)
    else
      .ok (.intVal lastrowid)

/-- `execute_query(query, params, fetch)`: runs `_execute_query_sync` and turns a
`DatabaseError` into `None` when `fetch` is truthy and `0` otherwise, so the
coroutine always returns a value and never propagates a database exception. -/
def execute_query (outcome : SqlOutcome) (fetch : Option String) : PyValue :=
  match _execute_query_sync outcome fetch with
  | .ok v => v
  | .error _ => if pyTruthyFetch fetch then .noneVal else .intVal 0

/-! ## Conversation input validation (`handlers/manager.py`,
`handlers/manager_feedback_flow.py`)

The conversation state enums live in `models.py`, which is not part of the
sources here; the constructors below are the states referenced by the handlers. -/

/-- Modelled from the spec: states of the manager-registration dialog declared in
the missing `models.py` (`ManagerRegistrationState`), as referenced by
`handlers/manager.py`. -/
inductive ManagerRegistrationState where
  | CHOOSE_RESTAURANT
  | AWAIT_FULL_NAME
deriving Repr, DecidableEq

/-- Modelled from the spec: states of the manager-feedback dialog declared in the
missing `models.py` (`ManagerFeedbackState`), as referenced by
`handlers/manager_feedback_flow.py` and `main.py`. -/
inductive ManagerFeedbackState where
  | AWAITING_DECISION
  | AWAITING_REASON
  | AWAITING_SHIFT_DATE
  | AWAITING_MANUAL_SHIFT_DATE
  | AWAITING_SHIFT_TIME
  | AWAITING_COMMENT
deriving Repr, DecidableEq

/-- What a conversation handler returns: the next state, or
`ConversationHandler.END`. -/
inductive ConvResult (σ : Type) where
  | state (s : σ)
  | endConv
deriving Repr, DecidableEq

/-- The keys of `context.user_data` touched by the two handlers under study. -/
structure UserData where
  reg_restaurant_code : Option String := none
  reg_restaurant_name : Option String := none
  shift_date : Option String := none
  shift_time : Option String := none
  feedback_comment : Option String := none
  chat_id : Option Int := none
  active_message_id : Option Nat := none
  transient_messages : List Nat := []
deriving Repr, DecidableEq

/-- `send_transient_message(context, chat_id, text)`: sends the message and, when
the send succeeds with message id `mid`, appends `mid` to
`user_data['transient_messages']`; on `Forbidden`/`BadRequest` the user data is
left alone. `sendResult` is the sent message's id, `none` on failure. -/
def send_transient_message (ud : UserData) (sendResult : Option Nat) : UserData :=
  match sendResult with
  | some mid => { ud with transient_messages := ud.transient_messages ++ [mid] }
  | none => ud

/-- `send_or_edit_message(update, context, text, ...)`: pops and deletes the
transient messages, edits or re-sends the active message, and records the new
active message id when a message was produced (`newMid`). -/
def send_or_edit_message (ud : UserData) (newMid : Option Nat) : UserData :=
  let ud' := { ud with transient_messages := [] }
  match newMid with
  | some m => { ud' with active_message_id := some m }
  | none => ud'

/-- Python `str.split()` whitespace (space, tab, newline, carriage return,
vertical tab, form feed). -/
def isPySpace (c : Char) : Bool :=
  c = ' ' || c = '\t' || c = '\n' || c = '\r' || c = '\x0b' || c = '\x0c'

/-- Split a character list at every separator character selected by `sep`,
keeping empty chunks (like Python `str.split(sep)` for a single separator). -/
def splitCharsBy (sep : Char → Bool) : List Char → List (List Char)
  | [] => [[]]
  | c :: rest =>
    match splitCharsBy sep rest with
    | [] => if sep c then [[], []] else [[c]]
    | w :: ws => if sep c then [] :: w :: ws else (c :: w) :: ws

/-- Python `text.split()`: the maximal whitespace-free words of the string. -/
def pySplitWords (s : String) : List String :=
  ((splitCharsBy isPySpace s.data).filter (fun w => w ≠ [])).map (fun w => ⟨w⟩)

/-- `add_pending_manager(...)`: `INSERT OR REPLACE INTO pending_managers`, keyed
by the primary key `user_id`. -/
def add_pending_manager (pm : List PendingManagerRow) (row : PendingManagerRow) :
    List PendingManagerRow :=
  pm.filter (fun r => r.user_id ≠ row.user_id) ++ [row]

/-- `full_name_received(update, context)` from `handlers/manager.py`: when the
submitted name has fewer than two whitespace-separated words, a transient
re-prompt is sent, the user's message is deleted and the handler stays in
`AWAIT_FULL_NAME`; otherwise a pending-manager record is stored, the admins are
notified, `user_data` is cleared (wiping the effect of the intermediate
`send_or_edit_message`) and the conversation ends. `sendRes` is the id of the
transient re-prompt message (`none` when sending it fails). Returns the handler
result, the new `user_data` and the new `pending_managers` table. -/
def full_name_received (text : String) (user_id : Int) (username : Option String)
    (ud : UserData) (pm : List PendingManagerRow) (sendRes : Option Nat)
    (now : Nat) :
    ConvResult ManagerRegistrationState × UserData × List PendingManagerRow :=
  if (pySplitWords text).length < 2 then
    (.state .AWAIT_FULL_NAME, send_transient_message ud sendRes, pm)
  else
    let row : PendingManagerRow :=
      ⟨user_id, text, username, (ud.reg_restaurant_code).getD "",
        (ud.reg_restaurant_name).getD "", now⟩
    (.endConv, {}, add_pending_manager pm row)

/-- Gregorian leap year, as validated by `datetime.date`. -/
def isLeapYear (y : Nat) : Bool :=
  (y % 4 = 0 && y % 100 ≠ 0) || y % 400 = 0

/-- Number of days in a month, as validated by `datetime.date`. -/
def daysInMonth (y m : Nat) : Nat :=
  if m = 2 then (if isLeapYear y then 29 else 28)
  else if m = 4 || m = 6 || m = 9 || m = 11 then 30
  else 31

/-- The numeric value of a list of decimal digit characters. -/
def digitsToNat (cs : List Char) : Nat :=
  cs.foldl (fun acc c => acc * 10 + (c.toNat - '0'.toNat)) 0

/-- `datetime.strptime(text, "%d.%m.%Y").date()`: day and month are one or two
digits (values 1–31 resp. 1–12 at the format level), the year exactly four
digits, the whole string must be consumed, and the resulting calendar date must
exist (year ≥ 1, day within the month). Returns `(day, month, year)` or `none`
when a `ValueError` is raised. -/
def parseShiftDate (s : String) : Option (Nat × Nat × Nat) :=
  match splitCharsBy (fun c => c = '.') s.data with
  | [ds, ms, ys] =>
    if 1 ≤ ds.length && ds.length ≤ 2 && ds.all (fun c => c.isDigit) &&
       1 ≤ ms.length && ms.length ≤ 2 && ms.all (fun c => c.isDigit) &&
       ys.length = 4 && ys.all (fun c => c.isDigit) then
      let d := digitsToNat ds
      let m := digitsToNat ms
      let y := digitsToNat ys
      if 1 ≤ d && d ≤ 31 && 1 ≤ m && m ≤ 12 && 1 ≤ y && d ≤ daysInMonth y m then
        some (d, m, y)
      else none
    else none
  | _ => none

/-- Zero-pad a number to two digits. -/
def pad2 (n : Nat) : String :=
  if n < 10 then "0" ++ toString n else toString n

/-- Zero-pad a year to four digits. -/
def pad4 (n : Nat) : String :=
  if n < 10 then "000" ++ toString n
  else if n < 100 then "00" ++ toString n
  else if n < 1000 then "0" ++ toString n
  else toString n

/-- Python `date.isoformat()`: `YYYY-MM-DD`. -/
def isoDateString (d m y : Nat) : String :=
  pad4 y ++ "-" ++ pad2 m ++ "-" ++ pad2 d

/-- `manual_shift_date_received(update, context)` from
`handlers/manager_feedback_flow.py`: tries to parse the entered text as
`DD.MM.YYYY`; on success stores the ISO date in `user_data['shift_date']` and
moves to `AWAITING_SHIFT_TIME`; on `ValueError` sends a transient re-prompt,
deletes the user's message and stays in `AWAITING_MANUAL_SHIFT_DATE`. -/
def manual_shift_date_received (text : String) (ud : UserData)
    (sendRes editRes : Option Nat) :
    ConvResult ManagerFeedbackState × UserData :=
  match parseShiftDate text with
  | some (d, m, y) =>
    (.state .AWAITING_SHIFT_TIME,
     send_or_edit_message { ud with shift_date := some (isoDateString d m y) } editRes)
  | none =>
    (.state .AWAITING_MANUAL_SHIFT_DATE, send_transient_message ud sendRes)

/-! ## Health monitor and watchdog (`monitor.py`, `watchdog.py`) -/

/-- `FROZEN_THRESHOLD_SECONDS` from `monitor.py`. -/
def FROZEN_THRESHOLD_SECONDS : Nat := 90

/-- `RESTART_INTERVAL_SECONDS` from `watchdog.py` (one week). -/
def RESTART_INTERVAL_SECONDS : Nat := 604800

/-- What the monitor observes during one check cycle: the PID file contents
(`none` on `FileNotFoundError`/`ValueError`), whether that PID is a live
process, whether the heartbeat file exists, its age in seconds, and whether the
HTTP `/ping` request succeeds. -/
structure MonitorObs where
  pidFile : Option Nat
  pid_exists : Bool
  heartbeat_exists : Bool
  heartbeat_age : Nat
  ping_ok : Bool
deriving Repr, DecidableEq

/-- What one iteration of the monitor's main loop decides to do. -/
inductive MonitorAction where
  /-- The bot is not running (no usable PID, or the PID is dead): skip the check. -/
  | skipCheck
  /-- Kill the bot process and clean up the state files. -/
  | killBot
  /-- Health check passed. -/
  | healthy
deriving Repr, DecidableEq

/-- One iteration of the monitor main loop in `monitor.py`: skip when the PID
file yields no running process (Python treats PID `0` as falsy); kill when the
heartbeat file exists and its age exceeds `FROZEN_THRESHOLD_SECONDS`; otherwise
fall through to the HTTP ping and kill when it fails. -/
def monitorCycle (o : MonitorObs) : MonitorAction :=
  match o.pidFile with
  | none => .skipCheck
  | some pid =>
    if pid = 0 || !o.pid_exists then .skipCheck
    else if o.heartbeat_exists && decide (o.heartbeat_age > FROZEN_THRESHOLD_SECONDS) then
      .killBot
    else if !o.ping_ok then .killBot
    else .healthy

/-- What the watchdog's inner polling loop decides to do for the bot child
process it spawned. -/
inductive WatchdogAction where
  /-- The bot process exited with this code: sleep 5 s, break, and (via the outer
  `while True`) start a fresh bot process. -/
  | restartAfterExit (code : Int)
  /-- Uptime exceeded `RESTART_INTERVAL_SECONDS`: terminate and restart. -/
  | plannedRestart
  /-- Keep polling. -/
  | keepRunning
deriving Repr, DecidableEq

/-- One iteration of the watchdog's inner loop in `watchdog.py`: `returnCode` is
`process.poll()` (`some code` once the bot process has exited) and `uptime` the
seconds since the bot was started. Any `break` of the inner loop is followed by
the outer `while True` loop spawning the bot again. -/
def watchdogPoll (returnCode : Option Int) (uptime : Nat) : WatchdogAction :=
  match returnCode with
  | some code => .restartAfterExit code
  | none =>
    if uptime > RESTART_INTERVAL_SECONDS then .plannedRestart else .keepRunning

/-! ## Conversation persistence (`main.py`) -/

/-- The construction parameters of the bot's `ConversationHandler`s that matter
for persistence: the handler's `name` and its `persistent` flag. -/
structure ConvHandlerCfg where
  name : String
  persistent : Bool
deriving Repr, DecidableEq

/-- The `main_conversation_handler` of `main.py`
(`persistent=True, name="main_conversation_handler"`). -/
def main_conversation_handler_cfg : ConvHandlerCfg :=
  ⟨"main_conversation_handler", true⟩

/-- The `admin_conversation_handler` of `main.py`
(`persistent=True, name="admin_conv"`). -/
def admin_conversation_handler_cfg : ConvHandlerCfg :=
  ⟨"admin_conv", true⟩

/-- The `manager_registration_handler` of `handlers/manager.py`
(`persistent=True, name="manager_reg_conv"`). -/
def manager_registration_handler_cfg : ConvHandlerCfg :=
  ⟨"manager_reg_conv", true⟩

/-- The `recruitment_conversation_handler` of `handlers/recruitment.py`
(`persistent=True, name="recruitment_conv"`). -/
def recruitment_conversation_handler_cfg : ConvHandlerCfg :=
  ⟨"recruitment_conv", true⟩

/-- The `onboarding_conversation_handler` of `handlers/onboarding.py`
(`persistent=True, name="onboarding_conv"`). -/
def onboarding_conversation_handler_cfg : ConvHandlerCfg :=
  ⟨"onboarding_conv", true⟩

/-- The `exit_interview_conversation_handler` of `handlers/exit_interview.py`
(`persistent=True, name="exit_interview_conv"`). -/
def exit_interview_conversation_handler_cfg : ConvHandlerCfg :=
  ⟨"exit_interview_conv", true⟩

/-- The `climate_survey_conversation_handler` of `handlers/climate_survey.py`
(`persistent=True, name="climate_survey_conv"`). -/
def climate_survey_conversation_handler_cfg : ConvHandlerCfg :=
  ⟨"climate_survey_conv", true⟩

/-- The `candidate_feedback_conversation_handler` of `handlers/feedback.py`
(`persistent=True, name="candidate_feedback_conv"`). -/
def candidate_feedback_conversation_handler_cfg : ConvHandlerCfg :=
  ⟨"candidate_feedback_conv", true⟩

/-- The `onboarding_followup_conversation_handler` of `handlers/feedback.py`
(`persistent=True, name="onboarding_followup_conv"`). -/
def onboarding_followup_conversation_handler_cfg : ConvHandlerCfg :=
  ⟨"onboarding_followup_conv", true⟩

/-- The `feedback_submission_handler` of `handlers/bot_feedback.py`
(`name="bot_feedback_conv"`, constructed **without** `persistent=True`, which
in `telegram.ext.ConversationHandler` defaults to `False`). -/
def feedback_submission_handler_cfg : ConvHandlerCfg :=
  ⟨"bot_feedback_conv", false⟩

/-- All ten conversation handlers constructed in the sources: eight registered
directly on the application in `main.py` plus the `recruitment_conv` and
`onboarding_conv` handlers nested as entry points of
`main_conversation_handler`. Nine are persistent; `bot_feedback_conv` is not. -/
def registeredConvHandlers : List ConvHandlerCfg :=
  [main_conversation_handler_cfg, admin_conversation_handler_cfg,
   manager_registration_handler_cfg, recruitment_conversation_handler_cfg,
   onboarding_conversation_handler_cfg, exit_interview_conversation_handler_cfg,
   climate_survey_conversation_handler_cfg, candidate_feedback_conversation_handler_cfg,
   onboarding_followup_conversation_handler_cfg, feedback_submission_handler_cfg]

/-- Modelled from the spec: the pickle persistence layer itself
(`telegram.ext.PicklePersistence`, configured in `main.py` with
`filepath=settings.PERSISTENCE_FILE`) is third-party code not under `src/`.
Per the spec, conversations are "per-user finite-state dialogs keyed by chat,
persisted to disk, resumed after restart": the persistence file stores, for each
persistent conversation handler name and chat key, the name of the dialog's
current state. -/
def PersistFile := List ((String × Int) × String)

/-- Modelled from the spec: recording a conversation-state transition in the
persistence file (`update_conversation`), replacing any previous state stored
under the same handler name and chat key. -/
def persistConversationState (file : PersistFile) (handlerName : String)
    (chatKey : Int) (stateName : String) : PersistFile :=
  ((handlerName, chatKey), stateName) ::
    file.filter (fun e => e.1 ≠ (handlerName, chatKey))

/-- Modelled from the spec: reading the persisted conversation state for one
handler name and chat key after a restart (`get_conversations`). -/
def loadConversationState (file : PersistFile) (handlerName : String)
    (chatKey : Int) : Option String :=
  (file.find? (fun e => e.1 = (handlerName, chatKey))).map (fun e => e.2)

/-- Modelled from the spec: what reaches the persistence file when a handler's
dialog transitions — `telegram.ext.ConversationHandler` writes the new state
through `update_conversation` only when it was constructed with
`persistent=True`; a non-persistent handler's state stays in memory and the
file is untouched. -/
def recordConversationState (file : PersistFile) (cfg : ConvHandlerCfg)
    (chatKey : Int) (stateName : String) : PersistFile :=
  if cfg.persistent then persistConversationState file cfg.name chatKey stateName
  else file

/-! ## Pending-feedback deduplication (`get_all_pending_feedback`,
`core/database.py`) -/

/-- An entry of the list built by `get_all_pending_feedback`. -/
structure FeedbackTaskSummary where
  id : String
  candidate_id : Int
  name : String
  restaurant_name : String
deriving Repr, DecidableEq

/-- The summary entry built from one `pending_feedback` row;
`getRestaurant` abstracts `json.loads(row['job_data_json'])
.get('interview_restaurant_name')`. -/
def summaryOfRow (getRestaurant : String → Option String) (r : PendingFeedback) :
    FeedbackTaskSummary :=
  ⟨r.feedback_id, r.candidate_id, r.candidate_name,
    (getRestaurant r.job_data_json).getD "Неизвестно"⟩

/-- Stable insert used to model `ORDER BY created_at` on `pending_feedback`. -/
def insertPendingByCreated (x : PendingFeedback) :
    List PendingFeedback → List PendingFeedback
  | [] => [x]
  | y :: ys =>
    if x.created_at ≤ y.created_at then x :: y :: ys else y :: insertPendingByCreated x ys

/-- Stable sort by `created_at` for `pending_feedback` rows. -/
def sortPendingByCreated : List PendingFeedback → List PendingFeedback
  | [] => []
  | x :: xs => insertPendingByCreated x (sortPendingByCreated xs)

/-- The accumulation loop of `get_all_pending_feedback`: walk the rows in order,
skip a row whose `candidate_id` is already in `processed_candidates` (`seen`),
and otherwise emit its summary and remember the candidate. -/
def gatherPendingTasks (getRestaurant : String → Option String) :
    List PendingFeedback → List Int → List FeedbackTaskSummary
  | [], _ => []
  | r :: rest, seen =>
    if r.candidate_id ∈ seen then gatherPendingTasks getRestaurant rest seen
    else summaryOfRow getRestaurant r ::
      gatherPendingTasks getRestaurant rest (r.candidate_id :: seen)

/-- `get_all_pending_feedback()`: `SELECT feedback_id, candidate_id,
candidate_name, job_data_json FROM pending_feedback ORDER BY created_at`,
followed by the dedup-by-candidate loop starting from an empty
`processed_candidates` set. -/
def get_all_pending_feedback (getRestaurant : String → Option String)
    (rows : List PendingFeedback) : List FeedbackTaskSummary :=
  gatherPendingTasks getRestaurant (sortPendingByCreated rows) []

/-! ## Helper lemmas -/

theorem mem_insertByCreated {x y : QueueItem} {l : List QueueItem} :
    x ∈ insertByCreated y l ↔ x = y ∨ x ∈ l := by
  induction l with
  | nil => simp [insertByCreated]
  | cons z zs ih =>
    simp only [insertByCreated]
    split
    · simp
    · simp only [List.mem_cons, ih]
      tauto

theorem mem_sortByCreated {x : QueueItem} {l : List QueueItem} :
    x ∈ sortByCreated l ↔ x ∈ l := by
  induction l with
  | nil => simp [sortByCreated]
  | cons y ys ih =>
    simp only [sortByCreated, mem_insertByCreated, ih, List.mem_cons]

/-! ## Claim theorems -/

/-- **C1.** The spec (and the bot's own admin alert text) says that once a
`sheets_queue` item's writes have failed `MAX_WRITE_ATTEMPTS = 3` times, exactly
one admin alert fires for it and the item is never selected for processing
again. The code does not enforce this: `get_sheets_queue_batch` filters only on
`is_processed`, which a failing `process_batch_for_sheet` never sets. Starting
from a queue holding one unprocessed item with 2 recorded attempts, a failing
cycle raises its attempts to 3 and fires the alert, yet the very next
`get_sheets_queue_batch` call still returns the item, and a further failing
cycle fires a second alert for it. -/
theorem sheets_retry_cap_not_enforced :
    (process_batch_for_sheet [⟨1, "S", "[]", 0, 2, false⟩]
        (get_sheets_queue_batch [⟨1, "S", "[]", 0, 2, false⟩]) false [99]) =
      ([⟨1, "S", "[]", 0, 3, false⟩], 1) ∧
    get_sheets_queue_batch [⟨1, "S", "[]", 0, 3, false⟩] = [⟨1, "S", "[]", 0, 3, false⟩] ∧
    (process_batch_for_sheet [⟨1, "S", "[]", 0, 3, false⟩]
        (get_sheets_queue_batch [⟨1, "S", "[]", 0, 3, false⟩]) false [99]).2 = 1 :=
  ⟨rfl, rfl, rfl⟩

/-- **C9.** `execute_query` never propagates a database error: when the
underlying sqlite operation fails with `sqlite3.Error`, it returns `None` when a
(truthy) fetch mode was requested and `0` otherwise; either fallback is falsy,
exactly like an empty fetch result (`None`, `[]`) or a zero row id, so callers
testing the result's truthiness cannot tell the failure from an empty result. -/
theorem execute_query_swallows_db_errors (msg : String) (fetch : Option String) :
    execute_query (.sqlError msg) fetch =
      (if pyTruthyFetch fetch then .noneVal else .intVal 0) ∧
    pyTruthy (execute_query (.sqlError msg) fetch) = false ∧
    pyTruthy .noneVal = false ∧ pyTruthy (.listVal []) = false := by
  refine ⟨rfl, ?_, rfl, rfl⟩
  by_cases h : pyTruthyFetch fetch <;>
    simp [execute_query, _execute_query_sync, pyTruthy, h]

/-- **C7.** Whenever the monitor finds a live bot process (usable PID file and
the PID exists) but the bot is unresponsive — the heartbeat file's age exceeds
the 90-second frozen threshold, or the HTTP `/ping` check fails — the monitor
cycle decides to kill the bot process; and once the bot process has exited, the
watchdog's polling loop restarts it. -/
theorem unresponsive_bot_killed_and_restarted (o : MonitorObs) (pid : Nat)
    (hpid : o.pidFile = some pid) (hnz : pid ≠ 0) (hlive : o.pid_exists = true)
    (hbad : (o.heartbeat_exists = true ∧ FROZEN_THRESHOLD_SECONDS < o.heartbeat_age) ∨
      o.ping_ok = false) :
    monitorCycle o = .killBot ∧
    (∀ code uptime, watchdogPoll (some code) uptime = .restartAfterExit code) := by
  refine ⟨?_, fun code uptime => rfl⟩
  simp only [monitorCycle, hpid, hnz, hlive]
  rcases hbad with ⟨hex, hage⟩ | hping
  · simp [hex, hage]
  · rcases h : o.heartbeat_exists && decide (o.heartbeat_age > FROZEN_THRESHOLD_SECONDS) with _ | _ <;>
      simp [h, hping]

/-- Closed witness for `unresponsive_bot_killed_and_restarted`: a live PID with a
120-second-old heartbeat is killed, and an exited bot process (code 9) is
restarted. -/
theorem unresponsive_bot_killed_and_restarted_witness :
    monitorCycle ⟨some 42, true, true, 120, true⟩ = .killBot ∧
    watchdogPoll (some 9) 100 = .restartAfterExit 9 := by
  have h := unresponsive_bot_killed_and_restarted ⟨some 42, true, true, 120, true⟩ 42
    rfl (by decide) rfl (Or.inl ⟨rfl, by decide⟩)
  exact ⟨h.1, h.2 9 100⟩

/-- **C8 counterexample.** The claim that *every* user's multi-step dialog is
restored from the pickle persistence file after a restart is false for the
bot-feedback submission dialog: `feedback_submission_handler` ("bot_feedback_conv",
`handlers/bot_feedback.py`) is one of the registered conversation handlers but
is constructed without `persistent=True`, so a state transition of that dialog
writes nothing to the persistence file and after a restart no state is loaded
for it — the dialog does not resume. -/
theorem bot_feedback_dialog_not_resumed :
    feedback_submission_handler_cfg ∈ registeredConvHandlers ∧
    feedback_submission_handler_cfg.persistent = false ∧
    recordConversationState [] feedback_submission_handler_cfg 555 "AWAIT_DESCRIPTION" =
      [] ∧
    loadConversationState
      (recordConversationState [] feedback_submission_handler_cfg 555 "AWAIT_DESCRIPTION")
      feedback_submission_handler_cfg.name 555 = none := by
  exact ⟨by decide, rfl, rfl, rfl⟩

/-- **C8 (amended).** For every user's multi-step dialog run by one of the nine
conversation handlers constructed with `persistent=True` (all of them except
the bot-feedback submission dialog `bot_feedback_conv`), the conversation state
persisted to the pickle persistence file is restored after a process restart:
recording the dialog's state under the handler's name and chat key and loading
it after the restart yields exactly that state, so the dialog resumes in the
same named state it was in. -/
theorem persistent_dialog_state_roundtrip (cfg : ConvHandlerCfg)
    (hcfg : cfg ∈ registeredConvHandlers) (hpers : cfg.persistent = true)
    (file : PersistFile) (chatKey : Int) (stateName : String) :
    loadConversationState
      (recordConversationState file cfg chatKey stateName) cfg.name chatKey =
      some stateName := by
  unfold recordConversationState
  rw [hpers, if_pos rfl]
  simp [loadConversationState, persistConversationState, List.find?]

/-- Closed witness for `persistent_dialog_state_roundtrip`: the persisted state
of `main_conversation_handler` for chat 555 is restored. -/
theorem persistent_dialog_state_roundtrip_witness :
    loadConversationState
      (recordConversationState [] main_conversation_handler_cfg 555 "MAIN")
      main_conversation_handler_cfg.name 555 = some "MAIN" :=
  persistent_dialog_state_roundtrip main_conversation_handler_cfg (by decide) rfl
    [] 555 "MAIN"

/-- If every attempt from `attempt` to `attempt + remaining` fails with a
retryable error, the retry loop exhausts all its attempts and re-raises the
outcome of the last one. -/
theorem retryGo_all_retryable (outcomes : Nat → Except GspreadAttemptError Unit)
    (remaining : Nat) :
    ∀ attempt : Nat,
      (∀ k, attempt ≤ k → k ≤ attempt + remaining →
        ∃ e, outcomes k = .error e ∧ isRetryableGspreadError e = true) →
      retryGo outcomes attempt remaining =
        (outcomes (attempt + remaining), attempt + remaining) := by
  induction remaining with
  | zero => intro attempt _; simp [retryGo]
  | succ n ih =>
    intro attempt h
    obtain ⟨e, he, hr⟩ := h attempt le_rfl (Nat.le_add_right _ _)
    simp only [retryGo, he, hr, if_true]
    have := ih (attempt + 1) (fun k hk1 hk2 =>
      h k (Nat.le_of_succ_le hk1) (by omega))
    rw [this]
    have harith : attempt + 1 + n = attempt + (n + 1) := by omega
    rw [harith]

/-- If the attempts before `k` fail with retryable errors and attempt `k` fails
with a non-retryable error, the retry loop stops at attempt `k` and propagates
that error. -/
theorem retryGo_nonretryable_stops (outcomes : Nat → Except GspreadAttemptError Unit)
    (remaining : Nat) :
    ∀ attempt k : Nat, ∀ e : GspreadAttemptError,
      attempt ≤ k → k ≤ attempt + remaining →
      (∀ j, attempt ≤ j → j < k →
        ∃ e', outcomes j = .error e' ∧ isRetryableGspreadError e' = true) →
      outcomes k = .error e → isRetryableGspreadError e = false →
      retryGo outcomes attempt remaining = (.error e, k) := by
  induction remaining with
  | zero =>
    intro attempt k e hk1 hk2 _ he hnr
    have : k = attempt := by omega
    subst this
    simp [retryGo, he]
  | succ n ih =>
    intro attempt k e hk1 hk2 hpre he hnr
    by_cases hak : attempt = k
    · subst hak
      simp [retryGo, he, hnr]
    · obtain ⟨e', he', hr'⟩ := hpre attempt le_rfl (by omega)
      simp only [retryGo, he', hr', if_true]
      exact ih (attempt + 1) k e (by omega) (by omega)
        (fun j hj1 hj2 => hpre j (by omega) hj2) he hnr

/-- **C4.** For a non-empty batch, `append_rows_to_sheet` is governed by
`retry_gspread_operation`: every backoff wait is clamped between 10 and 60
seconds; when each of the five allowed attempts raises one of the listed
transient error types, the operation is attempted exactly
`STOP_AFTER_ATTEMPTS = 5` times and the final error is re-raised; and a raised
exception outside the listed types is not retried — if the first attempt raises
it, the call propagates it having performed only that one attempt. -/
theorem append_rows_retry_policy (data : List (List String)) (hdata : data ≠ [])
    (outcomes : Nat → Except GspreadAttemptError Unit) :
    (∀ n, 10 ≤ gspreadRetryWait n ∧ gspreadRetryWait n ≤ 60) ∧
    ((∀ k, 1 ≤ k → k ≤ STOP_AFTER_ATTEMPTS →
        ∃ e, outcomes k = .error e ∧ isRetryableGspreadError e = true) →
      append_rows_to_sheet data outcomes =
        (outcomes STOP_AFTER_ATTEMPTS, STOP_AFTER_ATTEMPTS)) ∧
    (∀ e, isRetryableGspreadError e = false → outcomes 1 = .error e →
      append_rows_to_sheet data outcomes = (.error e, 1)) := by
  have hne : data.isEmpty = false := by
    cases data with
    | nil => exact absurd rfl hdata
    | cons a l => rfl
  refine ⟨?_, ?_, ?_⟩
  · intro n
    refine ⟨le_max_left _ _, max_le (by norm_num) (min_le_right _ _)⟩
  · intro h
    unfold append_rows_to_sheet retry_gspread_operation
    have := retryGo_all_retryable (fun k => if data.isEmpty then .ok () else outcomes k)
      (STOP_AFTER_ATTEMPTS - 1) 1
      (fun k hk1 hk2 => by
        simp only [hne, if_false]
        exact h k hk1 (by simpa [STOP_AFTER_ATTEMPTS] using hk2))
    rw [this]
    simp [hne, STOP_AFTER_ATTEMPTS]
  · intro e hnr he
    unfold append_rows_to_sheet retry_gspread_operation
    exact retryGo_nonretryable_stops (fun k => if data.isEmpty then .ok () else outcomes k)
      (STOP_AFTER_ATTEMPTS - 1) 1 1 e le_rfl (Nat.le_add_right _ _)
      (fun j hj1 hj2 => absurd (Nat.lt_of_le_of_lt hj1 hj2) (lt_irrefl 1))
      (by simp [hne, he]) hnr

/-- Closed witness for `append_rows_retry_policy`: a one-row batch whose appends
always raise `gspread.exceptions.APIError` is attempted 5 times and the error is
re-raised; had the first attempt raised a non-listed error instead, it would
have propagated after a single attempt. The first backoff wait is within
`[10, 60]`. -/
theorem append_rows_retry_policy_witness :
    (10 ≤ gspreadRetryWait 1 ∧ gspreadRetryWait 1 ≤ 60) ∧
    append_rows_to_sheet [["x"]] (fun _ => .error .apiError) =
      (.error .apiError, 5) ∧
    append_rows_to_sheet [["x"]] (fun _ => .error (.other "KeyboardInterrupt")) =
      (.error (.other "KeyboardInterrupt"), 1) := by
  have h1 := append_rows_retry_policy [["x"]] (by decide) (fun _ => .error .apiError)
  have h2 := append_rows_retry_policy [["x"]] (by decide)
    (fun _ => .error (.other "KeyboardInterrupt"))
  exact ⟨h1.1 1,
    h1.2.1 (fun k _ _ => ⟨.apiError, rfl, rfl⟩),
    h2.2.2 (.other "KeyboardInterrupt") rfl rfl⟩

/-- **C5.** When the global error handler catches a `Forbidden` error for an
update with an effective user, it silently cleans up that user's state: the
resulting database has no `managers`, `pending_managers`, `surveys`,
`candidate_restaurants` or `employees` row for the user, no `pending_feedback`
row naming the user as candidate or manager, every `feedback_history` reference
to the user as decider is nulled (other rows are untouched), the user is removed
from the in-memory interacted set, and no message is sent to anyone. -/
theorem forbidden_error_silent_cleanup (uid : Int) (effChat : Option Int)
    (db : DbState) (interacted : List Int) (adminIds : List Int) :
    (error_handler .forbidden (some uid) effChat db interacted adminIds).1 =
      delete_user_data db uid ∧
    (∀ r ∈ (delete_user_data db uid).managers, r.user_id ≠ uid) ∧
    (∀ r ∈ (delete_user_data db uid).pending_managers, r.user_id ≠ uid) ∧
    (∀ r ∈ (delete_user_data db uid).surveys, r.user_id ≠ uid) ∧
    (∀ r ∈ (delete_user_data db uid).candidate_restaurants, r.user_id ≠ uid) ∧
    (∀ r ∈ (delete_user_data db uid).employees, r.user_id ≠ uid) ∧
    (∀ t ∈ (delete_user_data db uid).pending_feedback,
      t.candidate_id ≠ uid ∧ t.manager_id ≠ uid) ∧
    ((delete_user_data db uid).feedback_history = db.feedback_history.map (fun h =>
      if h.decision_by_id = some uid then { h with decision_by_id := none } else h)) ∧
    uid ∉ (error_handler .forbidden (some uid) effChat db interacted adminIds).2.1 ∧
    (error_handler .forbidden (some uid) effChat db interacted adminIds).2.2 = [] := by
  refine ⟨rfl, ?_, ?_, ?_, ?_, ?_, ?_, rfl, ?_, rfl⟩
  · intro r hr
    simpa using (List.mem_filter.mp hr).2
  · intro r hr
    simpa using (List.mem_filter.mp hr).2
  · intro r hr
    simpa using (List.mem_filter.mp hr).2
  · intro r hr
    simpa using (List.mem_filter.mp hr).2
  · intro r hr
    simpa using (List.mem_filter.mp hr).2
  · intro t ht
    have h2 := List.mem_filter.mp ht
    have h1 := List.mem_filter.mp h2.1
    exact ⟨by simpa using h1.2, by simpa using h2.2⟩
  · intro hmem
    simp only [error_handler, handle_blocked_user] at hmem
    have := (List.mem_filter.mp hmem).2
    simp at this

/-- Closed witness for `forbidden_error_silent_cleanup`: a `Forbidden` error for
user 5 wipes that user's rows from a one-row-per-table database and sends no
message. -/
theorem forbidden_error_silent_cleanup_witness :
    (error_handler .forbidden (some 5) (some 6)
        ⟨[⟨5, "r1", none, none⟩], [], [], [], [], [], []⟩ [5, 9] [99]).1 =
      delete_user_data ⟨[⟨5, "r1", none, none⟩], [], [], [], [], [], []⟩ 5 ∧
    (error_handler .forbidden (some 5) (some 6)
        ⟨[⟨5, "r1", none, none⟩], [], [], [], [], [], []⟩ [5, 9] [99]).2.2 = [] :=
  ⟨(forbidden_error_silent_cleanup 5 (some 6)
      ⟨[⟨5, "r1", none, none⟩], [], [], [], [], [], []⟩ [5, 9] [99]).1,
   (forbidden_error_silent_cleanup 5 (some 6)
      ⟨[⟨5, "r1", none, none⟩], [], [], [], [], [], []⟩ [5, 9] [99]).2.2.2.2.2.2.2.2.2⟩

/-- **C3.** `move_pending_feedback_to_history(candidate_id, decision_by_id,
status)`: afterwards no pending task for the candidate remains while pending
tasks of other candidates are kept; when a pending task for the candidate
existed, the history gains exactly one row carrying that task's fields plus the
decision time, decider id and status — unless a history row with the same
`feedback_id` already exists, in which case the history is left unchanged; and
when no pending task exists the history is left unchanged. -/
theorem move_pending_feedback_to_history_spec (pending : List PendingFeedback)
    (hist : List FeedbackHistoryRow) (cid dby : Int) (status : String) (dtime : Nat) :
    (∀ t ∈ (move_pending_feedback_to_history pending hist cid dby status dtime).1,
      t.candidate_id ≠ cid) ∧
    (∀ t ∈ pending, t.candidate_id ≠ cid →
      t ∈ (move_pending_feedback_to_history pending hist cid dby status dtime).1) ∧
    (∀ t, pending.find? (fun t' => t'.candidate_id = cid) = some t →
      ((hist.any (fun h => h.feedback_id = t.feedback_id) = false →
        (move_pending_feedback_to_history pending hist cid dby status dtime).2 =
          hist ++ [historyRowOfTask t dtime dby status]) ∧
       (hist.any (fun h => h.feedback_id = t.feedback_id) = true →
        (move_pending_feedback_to_history pending hist cid dby status dtime).2 = hist))) ∧
    (pending.find? (fun t' => t'.candidate_id = cid) = none →
      (move_pending_feedback_to_history pending hist cid dby status dtime).2 = hist) := by
  refine ⟨?_, ?_, ?_, ?_⟩
  · intro t ht
    have hres : t ∈ remove_all_pending_feedback_for_candidate pending cid := by
      unfold move_pending_feedback_to_history at ht
      rcases hfind : pending.find? (fun t' => t'.candidate_id = cid) with _ | t0 <;>
        rw [hfind] at ht <;> exact ht
    simpa using (List.mem_filter.mp hres).2
  · intro t ht hne
    have hres : t ∈ remove_all_pending_feedback_for_candidate pending cid :=
      List.mem_filter.mpr ⟨ht, by simpa using hne⟩
    unfold move_pending_feedback_to_history
    rcases hfind : pending.find? (fun t' => t'.candidate_id = cid) with _ | t0 <;>
      rw [hfind] <;> exact hres
  · intro t hfind
    constructor
    · intro hnodup
      unfold move_pending_feedback_to_history
      rw [hfind]
      simp [insert_or_ignore_history, historyRowOfTask, hnodup]
    · intro hdup
      unfold move_pending_feedback_to_history
      rw [hfind]
      simp [insert_or_ignore_history, historyRowOfTask, hdup]
  · intro hfind
    unfold move_pending_feedback_to_history
    rw [hfind]

/-- Closed witness for `move_pending_feedback_to_history_spec`: with one pending
task for candidate 1 and an empty history, the call empties the candidate's
pending tasks and appends the corresponding history row with decision time 5,
decider 2 and status "ok". -/
theorem move_pending_feedback_to_history_spec_witness :
    (move_pending_feedback_to_history [⟨"f1", 10, some 3, 1, "A", "{}", 0⟩] [] 1 2 "ok" 5).2 =
      [historyRowOfTask ⟨"f1", 10, some 3, 1, "A", "{}", 0⟩ 5 2 "ok"] :=
  (((move_pending_feedback_to_history_spec [⟨"f1", 10, some 3, 1, "A", "{}", 0⟩] [] 1 2 "ok" 5).2.2.1
    ⟨"f1", 10, some 3, 1, "A", "{}", 0⟩ (by rfl)).1 (by rfl)).trans (by rfl)

/-- **C6 counterexample.** The claim that after a failed validation "the stored
conversation data is unchanged" is false: the transient re-prompt sent by
`send_transient_message` appends the sent message's id to
`user_data['transient_messages']`. Concretely, an invalid shift date entered
with empty user data leaves the conversation in `AWAITING_MANUAL_SHIFT_DATE`
and stores no `shift_date`, but the user data is no longer empty. -/
theorem validation_reprompt_mutates_user_data :
    parseShiftDate "99.99.9999" = none ∧
    (manual_shift_date_received "99.99.9999" {} (some 7) none).1 =
      .state .AWAITING_MANUAL_SHIFT_DATE ∧
    (manual_shift_date_received "99.99.9999" {} (some 7) none).2.shift_date = none ∧
    (manual_shift_date_received "99.99.9999" {} (some 7) none).2 ≠ ({} : UserData) := by
  refine ⟨rfl, rfl, rfl, ?_⟩
  decide

/-- **C6 (amended).** For every text input that fails validation the
conversation re-prompts in place: a manager full name with fewer than two
whitespace-separated words leaves `full_name_received` in `AWAIT_FULL_NAME`
without creating a pending-manager record, and a manually entered shift date
that does not parse as DD.MM.YYYY leaves `manual_shift_date_received` in
`AWAIDING_MANUAL_SHIFT_DATE` without storing a `shift_date`; in both cases
every conversation-data field is unchanged except that the id of the transient
re-prompt message (when it could be sent) is appended to the
`transient_messages` bookkeeping list. -/
theorem validation_failures_reprompt_in_place
    (text1 : String) (uid : Int) (username : Option String) (ud1 : UserData)
    (pm : List PendingManagerRow) (send1 : Option Nat) (now : Nat)
    (h1 : (pySplitWords text1).length < 2)
    (text2 : String) (ud2 : UserData) (send2 edit2 : Option Nat)
    (h2 : parseShiftDate text2 = none) :
    full_name_received text1 uid username ud1 pm send1 now =
      (.state .AWAIT_FULL_NAME,
        { ud1 with transient_messages := ud1.transient_messages ++ send1.toList }, pm) ∧
    manual_shift_date_received text2 ud2 send2 edit2 =
      (.state .AWAITING_MANUAL_SHIFT_DATE,
        { ud2 with transient_messages := ud2.transient_messages ++ send2.toList }) := by
  constructor
  · unfold full_name_received
    rw [if_pos h1]
    cases send1 with
    | none => simp [send_transient_message]
    | some mid => simp [send_transient_message]
  · unfold manual_shift_date_received
    rw [h2]
    cases send2 with
    | none => simp [send_transient_message]
    | some mid => simp [send_transient_message]

/-- Closed witness for `validation_failures_reprompt_in_place`: the one-word
name "Ivan" and the unparsable date "25/12/2024", with empty user data and
re-prompt message ids 7 and 8. -/
theorem validation_failures_reprompt_in_place_witness :
    full_name_received "Ivan" 1 none {} [] (some 7) 0 =
      (.state .AWAIT_FULL_NAME, { transient_messages := [7] }, []) ∧
    manual_shift_date_received "25/12/2024" {} (some 8) none =
      (.state .AWAITING_MANUAL_SHIFT_DATE, { transient_messages := [8] }) :=
  validation_failures_reprompt_in_place "Ivan" 1 none {} [] (some 7) 0 (by decide)
    "25/12/2024" {} (some 8) none (by decide)

/-- Every member of a list of naturals is bounded by their `foldr max 0`. -/
theorem le_foldr_max {a : Nat} {l : List Nat} (h : a ∈ l) : a ≤ l.foldr max 0 := by
  induction l with
  | nil => cases h
  | cons b bs ih =>
    rcases List.mem_cons.mp h with rfl | hmem
    · exact le_max_left _ _
    · exact le_trans (ih hmem) (le_max_right _ _)

/-- The invariant behind queue idempotence: some row with the given id is in the
queue, and every row with that id is flagged processed. -/
def IdProcessed (q : SheetsQueue) (i : Nat) : Prop :=
  (∃ x ∈ q, x.id = i) ∧ ∀ x ∈ q, x.id = i → x.is_processed = true

theorem idProcessed_mark {q : SheetsQueue} {i : Nat} (h : IdProcessed q i)
    (ids : List Nat) : IdProcessed (mark_sheets_queue_items_processed q ids) i := by
  obtain ⟨⟨x, hx, hxid⟩, hall⟩ := h
  unfold mark_sheets_queue_items_processed
  split
  · exact ⟨⟨x, hx, hxid⟩, hall⟩
  · constructor
    · by_cases hmem : x.id ∈ ids
      · exact ⟨{ x with is_processed := true }, List.mem_map.mpr ⟨x, hx, by simp [hmem]⟩, hxid⟩
      · exact ⟨x, List.mem_map.mpr ⟨x, hx, by simp [hmem]⟩, hxid⟩
    · intro y hy hyid
      obtain ⟨z, hz, hzy⟩ := List.mem_map.mp hy
      by_cases hmem : z.id ∈ ids
      · simp only [hmem, if_true] at hzy
        rw [← hzy]
      · simp only [hmem, if_false] at hzy
        subst hzy
        exact hall z hz hyid

theorem idProcessed_increment {q : SheetsQueue} {i : Nat} (h : IdProcessed q i)
    (ids : List Nat) : IdProcessed (increment_sheets_queue_attempts q ids) i := by
  obtain ⟨⟨x, hx, hxid⟩, hall⟩ := h
  unfold increment_sheets_queue_attempts
  split
  · exact ⟨⟨x, hx, hxid⟩, hall⟩
  · constructor
    · by_cases hmem : x.id ∈ ids
      · exact ⟨{ x with attempts := x.attempts + 1 }, List.mem_map.mpr ⟨x, hx, by simp [hmem]⟩, hxid⟩
      · exact ⟨x, List.mem_map.mpr ⟨x, hx, by simp [hmem]⟩, hxid⟩
    · intro y hy hyid
      obtain ⟨z, hz, hzy⟩ := List.mem_map.mp hy
      have hzid : z.id = i := by
        by_cases hmem : z.id ∈ ids <;> simp only [hmem, if_true, if_false] at hzy <;>
          rw [← hzy] at hyid <;> exact hyid
      have hzp := hall z hz hzid
      by_cases hmem : z.id ∈ ids <;> simp only [hmem, if_true, if_false] at hzy <;>
        rw [← hzy] <;> exact hzp

theorem idProcessed_add {q : SheetsQueue} {i : Nat} (h : IdProcessed q i)
    (s d : String) (c : Nat) : IdProcessed (add_to_sheets_db_queue q s d c) i := by
  obtain ⟨⟨x, hx, hxid⟩, hall⟩ := h
  have hfresh : nextQueueId q ≠ i := by
    have : i ≤ (q.map (·.id)).foldr max 0 :=
      hxid ▸ le_foldr_max (List.mem_map.mpr ⟨x, hx, rfl⟩)
    unfold nextQueueId
    omega
  constructor
  · exact ⟨x, List.mem_append.mpr (Or.inl hx), hxid⟩
  · intro y hy hyid
    rcases List.mem_append.mp hy with hold | hnew
    · exact hall y hold hyid
    · simp only [List.mem_singleton] at hnew
      subst hnew
      exact absurd hyid hfresh

theorem idProcessed_applyQueueOps {q : SheetsQueue} {i : Nat} (h : IdProcessed q i) :
    ∀ ops : List QueueOp, IdProcessed (applyQueueOps q ops) i := by
  intro ops
  induction ops generalizing q with
  | nil => exact h
  | cons op rest ih =>
    cases op with
    | mark ids => exact ih (idProcessed_mark h ids)
    | increment ids => exact ih (idProcessed_increment h ids)
    | add s d c => exact ih (idProcessed_add h s d c)

theorem idProcessed_of_mark {q : SheetsQueue} {ids : List Nat} {x : QueueItem}
    (hx : x ∈ q) (hid : x.id ∈ ids) :
    IdProcessed (mark_sheets_queue_items_processed q ids) x.id := by
  have hne : ids ≠ [] := List.ne_nil_of_mem hid
  unfold mark_sheets_queue_items_processed
  rw [if_neg hne]
  constructor
  · exact ⟨{ x with is_processed := true }, List.mem_map.mpr ⟨x, hx, by simp [hid]⟩, rfl⟩
  · intro y hy hyid
    obtain ⟨z, hz, hzy⟩ := List.mem_map.mp hy
    by_cases hmem : z.id ∈ ids
    · simp only [hmem, if_true] at hzy
      rw [← hzy]
    · simp only [hmem, if_false] at hzy
      subst hzy
      exact absurd (hyid ▸ hid) hmem

/-- **C2.** Once `mark_sheets_queue_items_processed` has set a queue item's
`is_processed` flag, no later `get_sheets_queue_batch` call returns a row with
that item's id, whatever queue operations (further marks, attempt increments,
new enqueues) happen in between: the batch query filters on `is_processed = 0`,
marking is permanent, and AUTOINCREMENT never reuses the id. -/
theorem processed_queue_item_never_rebatched (q : SheetsQueue) (ids : List Nat)
    (x : QueueItem) (hx : x ∈ q) (hid : x.id ∈ ids) (ops : List QueueOp) (limit : Nat) :
    (get_sheets_queue_batch
        (applyQueueOps (mark_sheets_queue_items_processed q ids) ops) limit).all
      (fun y => y.id ≠ x.id) = true := by
  rw [List.all_eq_true]
  intro y hy
  have hinv : IdProcessed (applyQueueOps (mark_sheets_queue_items_processed q ids) ops) x.id :=
    idProcessed_applyQueueOps (idProcessed_of_mark hx hid) ops
  have hy' : y ∈ ((sortByCreated
      (applyQueueOps (mark_sheets_queue_items_processed q ids) ops)).filter
      (fun i => !i.is_processed)) := List.mem_of_mem_take hy
  have hmem := mem_sortByCreated.mp (List.mem_filter.mp hy').1
  have hunproc : y.is_processed = false := by
    have := (List.mem_filter.mp hy').2
    simpa using this
  simp only [decide_eq_true_eq]
  intro hcon
  have := hinv.2 y hmem hcon
  rw [this] at hunproc
  cases hunproc

/-- Closed witness for `processed_queue_item_never_rebatched`: after marking the
only queued item (id 1) processed and then enqueueing a fresh row, the next
batch contains no row with id 1. -/
theorem processed_queue_item_never_rebatched_witness :
    (get_sheets_queue_batch
        (applyQueueOps
          (mark_sheets_queue_items_processed [⟨1, "S", "[]", 0, 2, false⟩] [1])
          [.add "S" "[1]" 7]) 50).all
      (fun y => y.id ≠ 1) = true :=
  processed_queue_item_never_rebatched [⟨1, "S", "[]", 0, 2, false⟩] [1]
    ⟨1, "S", "[]", 0, 2, false⟩ (by decide) (by decide) [.add "S" "[1]" 7] 50

/-- Candidates of emitted summaries are never in the `processed_candidates`
accumulator the loop was started with. -/
theorem gather_not_mem_seen (g : String → Option String) :
    ∀ (rows : List PendingFeedback) (seen : List Int),
      ∀ t ∈ gatherPendingTasks g rows seen, t.candidate_id ∉ seen := by
  intro rows
  induction rows with
  | nil => intro seen t ht; cases ht
  | cons r rest ih =>
    intro seen t ht
    unfold gatherPendingTasks at ht
    by_cases hseen : r.candidate_id ∈ seen
    · rw [if_pos hseen] at ht
      exact ih seen t ht
    · rw [if_neg hseen] at ht
      rcases List.mem_cons.mp ht with rfl | htail
      · exact hseen
      · have := ih (r.candidate_id :: seen) t htail
        exact fun hmem => this (List.mem_cons_of_mem _ hmem)

/-- The loop of `get_all_pending_feedback` emits pairwise distinct candidate
ids. -/
theorem gather_nodup (g : String → Option String) :
    ∀ (rows : List PendingFeedback) (seen : List Int),
      ((gatherPendingTasks g rows seen).map (fun t => t.candidate_id)).Nodup := by
  intro rows
  induction rows with
  | nil => intro seen; simp [gatherPendingTasks]
  | cons r rest ih =>
    intro seen
    unfold gatherPendingTasks
    by_cases hseen : r.candidate_id ∈ seen
    · rw [if_pos hseen]
      exact ih seen
    · rw [if_neg hseen]
      simp only [List.map_cons, List.nodup_cons]
      refine ⟨?_, ih (r.candidate_id :: seen)⟩
      intro hmem
      obtain ⟨t, ht, hteq⟩ := List.mem_map.mp hmem
      have := gather_not_mem_seen g rest (r.candidate_id :: seen) t ht
      exact this (by rw [hteq]; exact List.mem_cons_self _ _)

/-- The loop's output is a sublist of the summaries of all rows, in row order. -/
theorem gather_sublist (g : String → Option String) :
    ∀ (rows : List PendingFeedback) (seen : List Int),
      (gatherPendingTasks g rows seen).Sublist (rows.map (summaryOfRow g)) := by
  intro rows
  induction rows with
  | nil => intro seen; simp [gatherPendingTasks]
  | cons r rest ih =>
    intro seen
    unfold gatherPendingTasks
    by_cases hseen : r.candidate_id ∈ seen
    · rw [if_pos hseen]
      exact (ih seen).cons _
    · rw [if_neg hseen]
      exact (ih (r.candidate_id :: seen)).cons₂ _

/-- Every emitted summary is the summary of the first row (in scan order) whose
candidate id matches it. -/
theorem gather_first_occurrence (g : String → Option String) :
    ∀ (rows : List PendingFeedback) (seen : List Int),
      ∀ t ∈ gatherPendingTasks g rows seen,
        ∃ row, rows.find? (fun x => x.candidate_id == t.candidate_id) = some row ∧
          summaryOfRow g row = t := by
  intro rows
  induction rows with
  | nil => intro seen t ht; cases ht
  | cons r rest ih =>
    intro seen t ht
    unfold gatherPendingTasks at ht
    by_cases hseen : r.candidate_id ∈ seen
    · rw [if_pos hseen] at ht
      obtain ⟨row, hfind, hsum⟩ := ih seen t ht
      have hne : r.candidate_id ≠ t.candidate_id := by
        intro heq
        exact gather_not_mem_seen g rest seen t ht (heq ▸ hseen)
      refine ⟨row, ?_, hsum⟩
      rw [List.find?_cons_of_neg _ (by simpa using hne)]
      exact hfind
    · rw [if_neg hseen] at ht
      rcases List.mem_cons.mp ht with rfl | htail
      · refine ⟨r, ?_, rfl⟩
        rw [List.find?_cons_of_pos _ (by simp [summaryOfRow])]
      · obtain ⟨row, hfind, hsum⟩ := ih (r.candidate_id :: seen) t htail
        have hne : r.candidate_id ≠ t.candidate_id := by
          intro heq
          exact gather_not_mem_seen g rest (r.candidate_id :: seen) t htail
            (heq ▸ List.mem_cons_self _ _)
        refine ⟨row, ?_, hsum⟩
        rw [List.find?_cons_of_neg _ (by simpa using hne)]
        exact hfind

/-- **C10.** `get_all_pending_feedback` returns at most one entry per candidate:
the emitted candidate ids are pairwise distinct, the result is a sublist of the
per-row summaries taken in `created_at` order (so creation order is preserved),
and every returned entry is the summary of the first task in that order whose
candidate matches — later tasks for the same candidate, e.g. held by other
managers, are dropped. -/
theorem get_all_pending_feedback_dedups (g : String → Option String)
    (rows : List PendingFeedback) :
    ((get_all_pending_feedback g rows).map (fun t => t.candidate_id)).Nodup ∧
    (get_all_pending_feedback g rows).Sublist
      ((sortPendingByCreated rows).map (summaryOfRow g)) ∧
    ∀ t ∈ get_all_pending_feedback g rows,
      ∃ row, (sortPendingByCreated rows).find?
          (fun x => x.candidate_id == t.candidate_id) = some row ∧
        summaryOfRow g row = t :=
  ⟨gather_nodup g (sortPendingByCreated rows) [],
   gather_sublist g (sortPendingByCreated rows) [],
   gather_first_occurrence g (sortPendingByCreated rows) []⟩

/-- Closed witness for `get_all_pending_feedback_dedups`: two pending tasks for
candidate 1 held by managers 10 and 11; only the earlier task ("f1") is
returned, and it is the first match for candidate 1 in creation order. -/
theorem get_all_pending_feedback_dedups_witness :
    ((get_all_pending_feedback (fun _ => none)
        [⟨"f2", 11, none, 1, "A", "{}", 5⟩, ⟨"f1", 10, none, 1, "A", "{}", 0⟩]).map
      (fun t => t.candidate_id)).Nodup ∧
    (∃ row, (sortPendingByCreated
          [⟨"f2", 11, none, 1, "A", "{}", 5⟩, ⟨"f1", 10, none, 1, "A", "{}", 0⟩]).find?
        (fun x => x.candidate_id ==
          (summaryOfRow (fun _ => none) ⟨"f1", 10, none, 1, "A", "{}", 0⟩).candidate_id) =
        some row ∧
      summaryOfRow (fun _ => none) row =
        summaryOfRow (fun _ => none) ⟨"f1", 10, none, 1, "A", "{}", 0⟩) :=
  ⟨(get_all_pending_feedback_dedups (fun _ => none)
      [⟨"f2", 11, none, 1, "A", "{}", 5⟩, ⟨"f1", 10, none, 1, "A", "{}", 0⟩]).1,
   (get_all_pending_feedback_dedups (fun _ => none)
      [⟨"f2", 11, none, 1, "A", "{}", 5⟩, ⟨"f1", 10, none, 1, "A", "{}", 0⟩]).2.2
     (summaryOfRow (fun _ => none) ⟨"f1", 10, none, 1, "A", "{}", 0⟩) (by decide)⟩

end HRBot
